import Mathlib

/-!
Verification of the product-catalog web application (WebApplication.py).

The program has three parts:
- setup_database: ensures a Products table exists and seeds it with two
  fixed rows when empty;
- get_products: the GET /products handler, which selects all rows, parses
  each row's XML Details document with ElementTree, extracts the text of
  specs/cpu, specs/ram and specs/storage, and returns a JSON array;
- digital_signature_demo: a one-shot RSA sign/verify self test whose
  verification failure is caught locally and printed.

The embedding models the database as an explicit state (the Products table
as a list of rows plus the serial sequence), XML documents as element
trees with the ElementTree observables used by the code (tag, text as an
optional string, direct children, find by tag), Python exceptions as an
error type threaded through Except, and the cursor/connection close calls
as an explicit trace recording whether each close executed before the
handler returned.
-/

set_option autoImplicit false

namespace WebApp

/-- An XML element as seen through ElementTree: a tag, optional text
content (ElementTree yields None when an element has no text), and the
list of direct child elements in document order. -/
inductive XMLElem where
  | mk (tag : String) (text : Option String) (children : List XMLElem)

def XMLElem.tag : XMLElem → String
  | .mk t _ _ => t

def XMLElem.text : XMLElem → Option String
  | .mk _ x _ => x

def XMLElem.children : XMLElem → List XMLElem
  | .mk _ _ c => c

/-- ElementTree find: the first direct child carrying the given tag, or
none when there is no such child. -/
def XMLElem.find (e : XMLElem) (t : String) : Option XMLElem :=
  e.children.find? (fun c => c.tag == t)

/-- The value of the Details column. ElementTree fromstring either raises
ParseError on a malformed document (constructor malformed, carrying the
raw text) or returns the root element of a well-formed one
(constructor doc). -/
inductive Details where
  | malformed (raw : String)
  | doc (root : XMLElem)

/-- The Python exceptions the handler can raise: an XML ParseError from
fromstring, an AttributeError from calling find or reading text on the
None returned by a failed find, and a database error surfaced by the
driver. -/
inductive DBError where
  | undefinedTable

inductive PyError where
  | parseError
  | attributeError
  | dbError (e : DBError)

/-- One stored row of the Products table. -/
structure Row where
  productID : Nat
  name : String
  details : Details

/-- The Products table: its rows in natural (insertion) order plus the
next value of the SERIAL ProductID sequence. -/
structure Table where
  rows : List Row
  nextID : Nat

/-- The database state: the Products table when it exists. -/
structure DBState where
  table : Option Table

/-- JSON values as produced by jsonify: Python None becomes null, str a
string, int a number, a dict an object with its insertion-ordered keys,
and a list an array. -/
inductive JSON where
  | null
  | str (s : String)
  | int (n : Int)
  | arr (items : List JSON)
  | obj (fields : List (String × JSON))

/-- jsonify on an optional string: None serializes to null. -/
def jsonOfOpt : Option String → JSON
  | none => JSON.null
  | some s => JSON.str s

/-- An HTTP response: status code and JSON body. -/
structure HTTPResponse where
  status : Nat
  body : JSON

/-- Whether the close calls at the end of the handler executed. -/
structure ConnTrace where
  curClosed : Bool
  connClosed : Bool

/-! ## Database operations issued by the program -/

/-- CREATE TABLE IF NOT EXISTS Products: creates the empty table with the
SERIAL sequence starting at 1 when it does not exist, otherwise leaves
the state unchanged. -/
def createProductsIfNotExists (db : DBState) : DBState :=
  match db.table with
  | none => ⟨some ⟨[], 1⟩⟩
  | some _ => db

/-- SELECT COUNT(*) FROM Products. Fails when the table does not exist. -/
def countProducts (db : DBState) : Except DBError Nat :=
  match db.table with
  | none => Except.error DBError.undefinedTable
  | some t => Except.ok t.rows.length

/-- INSERT INTO Products (Name, Details) VALUES ...: each value receives
the next SERIAL ProductID and is appended to the table in order. -/
def insertValues : List (String × Details) → Table → Table
  | [], t => t
  | (n, d) :: vs, t => insertValues vs ⟨t.rows ++ [⟨t.nextID, n, d⟩], t.nextID + 1⟩

/-- SELECT ProductID, Name, Details FROM Products: all rows in the
natural row order, leaving the state unchanged. Fails when the table does
not exist. -/
def selectProducts (db : DBState) : Except DBError (List Row × DBState) :=
  match db.table with
  | none => Except.error DBError.undefinedTable
  | some t => Except.ok (t.rows, db)

/-! ## Seed data

The two literal rows of the INSERT statement, with the Details documents
given as the ElementTree parse of the literal XML strings in the source
(the XML prolog contributes nothing to the element tree). -/

def laptopDetailsXML : XMLElem :=
  .mk "product" none [
    .mk "brand" (some "XYZ") [],
    .mk "specs" none [
      .mk "cpu" (some "Intel i7") [],
      .mk "ram" (some "16GB") [],
      .mk "storage" (some "512GB SSD") []]]

def smartphoneDetailsXML : XMLElem :=
  .mk "product" none [
    .mk "brand" (some "ABC") [],
    .mk "specs" none [
      .mk "cpu" (some "Snapdragon 888") [],
      .mk "ram" (some "8GB") [],
      .mk "storage" (some "256GB") []]]

def seedValues : List (String × Details) :=
  [("Laptop", Details.doc laptopDetailsXML),
   ("Smartphone", Details.doc smartphoneDetailsXML)]

/-! ## setup_database -/

/-- setup_database: connect, CREATE TABLE IF NOT EXISTS, count the rows,
insert the two seed rows when the count is zero, commit and close. Any
database error propagates (fatal at startup). -/
def setup_database (db : DBState) : Except DBError DBState :=
  let db1 := createProductsIfNotExists db
  match countProducts db1 with
  | Except.error e => Except.error e
  | Except.ok cnt =>
    if cnt = 0 then
      match db1.table with
      | none => Except.error DBError.undefinedTable
      | some t => Except.ok ⟨some (insertValues seedValues t)⟩
    else
      Except.ok db1

/-! ## get_products -/

/-- ET.fromstring on the Details column: ParseError on a malformed
document, otherwise the root element. -/
def fromstring : Details → Except PyError XMLElem
  | .malformed _ => Except.error PyError.parseError
  | .doc root => Except.ok root

/-- The expression specs.find(tag).text: when find returns None, reading
text raises AttributeError; otherwise the optional text of the child. -/
def findText (e : XMLElem) (t : String) : Except PyError (Option String) :=
  match e.find t with
  | none => Except.error PyError.attributeError
  | some c => Except.ok c.text

/-- The body of the for loop of get_products for one row: parse the
Details document, find the specs node (calling find on the None result
raises AttributeError), read the cpu, ram and storage text, and build the
record appended to the products list. -/
def parseRow (r : Row) : Except PyError JSON :=
  match fromstring r.details with
  | Except.error e => Except.error e
  | Except.ok root =>
    match root.find "specs" with
    | none => Except.error PyError.attributeError
    | some specs =>
      match findText specs "cpu" with
      | Except.error e => Except.error e
      | Except.ok cpu =>
        match findText specs "ram" with
        | Except.error e => Except.error e
        | Except.ok ram =>
          match findText specs "storage" with
          | Except.error e => Except.error e
          | Except.ok sto =>
            Except.ok (JSON.obj [
              ("ProductID", JSON.int (Int.ofNat r.productID)),
              ("Name", JSON.str r.name),
              ("CPU", jsonOfOpt cpu),
              ("RAM", jsonOfOpt ram),
              ("Storage", jsonOfOpt sto)])

/-- The for loop of get_products: builds the records in row order,
aborting with the first raised exception. -/
def buildProducts : List Row → Except PyError (List JSON)
  | [] => Except.ok []
  | r :: rs =>
    match parseRow r with
    | Except.error e => Except.error e
    | Except.ok j =>
      match buildProducts rs with
      | Except.error e => Except.error e
      | Except.ok js => Except.ok (j :: js)

/-- get_products: open a connection and cursor, select all rows, run the
parsing loop, close the cursor and the connection, and return jsonify of
the list. An exception raised by the select or by the loop propagates
before the close calls are reached, so on the error paths neither close
executes. The final component is the database state after the request. -/
def get_products (db : DBState) : Except PyError JSON × ConnTrace × DBState :=
  match selectProducts db with
  | Except.error e => (Except.error (PyError.dbError e), ⟨false, false⟩, db)
  | Except.ok (rows, db1) =>
    match buildProducts rows with
    | Except.error e => (Except.error e, ⟨false, false⟩, db1)
    | Except.ok js => (Except.ok (JSON.arr js), ⟨true, true⟩, db1)

/-- The GET /products endpoint as seen by an HTTP client: a successful
handler return is a 200 response with the JSON body; a raised exception
propagates to the framework (no 200 response). -/
def productsEndpoint (db : DBState) : Except PyError HTTPResponse × ConnTrace × DBState :=
  match get_products db with
  | (Except.ok j, tr, db1) => (Except.ok ⟨200, j⟩, tr, db1)
  | (Except.error e, tr, db1) => (Except.error e, tr, db1)

/-! ## digital_signature_demo

The demo prints a header, generates a key pair, signs a fixed message,
prints a confirmation, and verifies inside a try/except that catches any
exception and prints a failure message. The cryptographic sign and verify
live in the library; the demo is modelled over the outcome of the verify
call (normal return, or a raised exception carrying a message), which is
exactly what the try/except observes. -/

/-- digital_signature_demo, parametrized by the outcome of the
public_key.verify call. The result is the list of printed lines wrapped
in Except: an error value would model an exception escaping to the
caller, and the try/except around verify means none does. -/
def digital_signature_demo (verifyResult : Except String Unit) :
    Except String (List String) :=
  let header := ["--- Digital Signature Demo ---", "Message signed."]
  match verifyResult with
  | Except.ok _ => Except.ok (header ++ ["Signature verified successfully!"])
  | Except.error e =>
      Except.ok (header ++ ["Signature verification failed: " ++ e])

/-! ## Spec-side record extraction (for the refinement claims)

These definitions follow the words of the spec and of the claims, to be
compared with the code-side parseRow: a record is produced from a row
whose Details document parses and contains a specs node with cpu, ram and
storage children. -/

/-- The text content of the given child of the specs node of a Details
document, following the claim words: defined (as the optional text) when
the document parses, has a specs node, and the child is present. -/
def specText? (d : Details) (field : String) : Option (Option String) :=
  match d with
  | .malformed _ => none
  | .doc root =>
    match root.find "specs" with
    | none => none
    | some specs =>
      match specs.find field with
      | none => none
      | some c => some c.text

/-- The record the claims describe for a row whose specs children are all
present, with an absent text serialized as null. -/
def specRecordNode? (r : Row) : Option JSON :=
  match specText? r.details "cpu", specText? r.details "ram",
        specText? r.details "storage" with
  | some cpu, some ram, some sto =>
    some (JSON.obj [
      ("ProductID", JSON.int (Int.ofNat r.productID)),
      ("Name", JSON.str r.name),
      ("CPU", jsonOfOpt cpu),
      ("RAM", jsonOfOpt ram),
      ("Storage", jsonOfOpt sto)])
  | _, _, _ => none

/-- The record the claims describe for a row whose specs children are all
present and all carry text content: each field is that text. -/
def specRecordFull? (r : Row) : Option JSON :=
  match specText? r.details "cpu", specText? r.details "ram",
        specText? r.details "storage" with
  | some (some ct), some (some rt), some (some st) =>
    some (JSON.obj [
      ("ProductID", JSON.int (Int.ofNat r.productID)),
      ("Name", JSON.str r.name),
      ("CPU", JSON.str ct),
      ("RAM", JSON.str rt),
      ("Storage", JSON.str st)])
  | _, _, _ => none

/-- A Details document that is malformed or lacks the specs subtree. -/
def lacksSpecs : Details → Bool
  | .malformed _ => true
  | .doc root => (root.find "specs").isNone

/-- The ordered sequence of records a row-wise extraction g assigns to a
list of rows, defined when g is defined on every row: the spec-side
counterpart of the for loop. -/
def recordsOf? (g : Row → Option JSON) : List Row → Option (List JSON)
  | [] => some []
  | r :: rs =>
    match g r, recordsOf? g rs with
    | some j, some js => some (j :: js)
    | _, _ => none

/-- The table produced by seeding the empty table whose sequence starts
at 1, as setup_database builds it. -/
def seededTable : Table :=
  ⟨[⟨1, "Laptop", Details.doc laptopDetailsXML⟩,
    ⟨2, "Smartphone", Details.doc smartphoneDetailsXML⟩], 3⟩

/-! ## Helper lemmas -/

theorem parseRow_of_node {r : Row} {j : JSON} (h : specRecordNode? r = some j) :
    parseRow r = Except.ok j := by
  unfold specRecordNode? at h
  cases hd : r.details with
  | malformed raw => rw [hd] at h; simp [specText?] at h
  | doc root =>
    rw [hd] at h
    cases hs : root.find "specs" with
    | none => simp [specText?, hs] at h
    | some specs =>
      cases hc : specs.find "cpu" with
      | none => simp [specText?, hs, hc] at h
      | some c =>
        cases hra : specs.find "ram" with
        | none => simp [specText?, hs, hc, hra] at h
        | some ra =>
          cases hst : specs.find "storage" with
          | none => simp [specText?, hs, hc, hra, hst] at h
          | some st =>
            simp [specText?, hs, hc, hra, hst] at h
            simp [parseRow, fromstring, findText, hd, hs, hc, hra, hst, ← h]

theorem node_of_full {r : Row} {j : JSON} (h : specRecordFull? r = some j) :
    specRecordNode? r = some j := by
  unfold specRecordFull? at h
  unfold specRecordNode?
  cases hc : specText? r.details "cpu" with
  | none => rw [hc] at h; simp at h
  | some cpu =>
    cases hra : specText? r.details "ram" with
    | none => rw [hc, hra] at h; simp at h
    | some ram =>
      cases hst : specText? r.details "storage" with
      | none => rw [hc, hra, hst] at h; simp at h
      | some sto =>
        rw [hc, hra, hst] at h
        cases cpu with
        | none => simp at h
        | some ct =>
          cases ram with
          | none => simp at h
          | some rt =>
            cases sto with
            | none => simp at h
            | some st => simpa [jsonOfOpt] using h

theorem parseRow_of_full {r : Row} {j : JSON} (h : specRecordFull? r = some j) :
    parseRow r = Except.ok j :=
  parseRow_of_node (node_of_full h)

theorem buildProducts_of_records {g : Row → Option JSON}
    (hg : ∀ r j, g r = some j → parseRow r = Except.ok j) :
    ∀ {rows : List Row} {js : List JSON},
      recordsOf? g rows = some js → buildProducts rows = Except.ok js := by
  intro rows
  induction rows with
  | nil =>
    intro js h
    simp [recordsOf?] at h
    simp [buildProducts, ← h]
  | cons r rs ih =>
    intro js h
    unfold recordsOf? at h
    cases hr : g r with
    | none => rw [hr] at h; simp at h
    | some j =>
      rw [hr] at h
      cases hrs : recordsOf? g rs with
      | none => rw [hrs] at h; simp at h
      | some js2 =>
        rw [hrs] at h
        simp at h
        simp [buildProducts, hg r j hr, ih hrs, ← h]

theorem parseRow_lacksSpecs {r : Row} (h : lacksSpecs r.details = true) :
    ∃ e, parseRow r = Except.error e := by
  cases hd : r.details with
  | malformed raw => exact ⟨PyError.parseError, by simp [parseRow, fromstring, hd]⟩
  | doc root =>
    rw [hd] at h
    simp [lacksSpecs, Option.isNone_iff_eq_none] at h
    exact ⟨PyError.attributeError, by simp [parseRow, fromstring, hd, h]⟩

theorem buildProducts_error : ∀ {rows : List Row} {r : Row}, r ∈ rows →
    (∃ e, parseRow r = Except.error e) →
    ∃ e, buildProducts rows = Except.error e := by
  intro rows
  induction rows with
  | nil => intro r hmem; cases hmem
  | cons a rs ih =>
    intro r hmem he
    cases hmem with
    | head =>
      obtain ⟨e, he⟩ := he
      exact ⟨e, by simp [buildProducts, he]⟩
    | tail _ hmem2 =>
      cases ha : parseRow a with
      | error e => exact ⟨e, by simp [buildProducts, ha]⟩
      | ok j =>
        obtain ⟨e, hbe⟩ := ih hmem2 he
        exact ⟨e, by simp [buildProducts, ha, hbe]⟩

/-- Seeding the empty table with sequence value m yields the two rows
with ProductID m and m + 1. -/
theorem insertValues_seed (m : Nat) :
    insertValues seedValues ⟨[], m⟩ =
      ⟨[⟨m, "Laptop", Details.doc laptopDetailsXML⟩,
        ⟨m + 1, "Smartphone", Details.doc smartphoneDetailsXML⟩], m + 2⟩ := rfl

/-! ## Claim theorems -/

/-- Claim C1: for every table state in which each row's Details document
parses and contains a specs node with cpu, ram and storage children each
carrying text content, GET /products returns, in the natural row order,
exactly one record with fields ProductID, Name, CPU, RAM, Storage per
stored row, the last three being the text of specs/cpu, specs/ram and
specs/storage of that row. -/
theorem get_products_full_refinement {rows : List Row} {n : Nat} {js : List JSON}
    (h : recordsOf? specRecordFull? rows = some js) :
    productsEndpoint ⟨some ⟨rows, n⟩⟩ =
      (Except.ok ⟨200, JSON.arr js⟩, ⟨true, true⟩, ⟨some ⟨rows, n⟩⟩) := by
  have hb := buildProducts_of_records (fun r j hj => parseRow_of_full hj) h
  simp [productsEndpoint, get_products, selectProducts, hb]

/-- Witness for C1: the two seeded rows satisfy the hypothesis and produce
their two records. -/
theorem get_products_full_refinement_witness :
    productsEndpoint ⟨some seededTable⟩ =
      (Except.ok ⟨200, JSON.arr [
        JSON.obj [("ProductID", JSON.int 1), ("Name", JSON.str "Laptop"),
          ("CPU", JSON.str "Intel i7"), ("RAM", JSON.str "16GB"),
          ("Storage", JSON.str "512GB SSD")],
        JSON.obj [("ProductID", JSON.int 2), ("Name", JSON.str "Smartphone"),
          ("CPU", JSON.str "Snapdragon 888"), ("RAM", JSON.str "8GB"),
          ("Storage", JSON.str "256GB")]]⟩, ⟨true, true⟩, ⟨some seededTable⟩) :=
  get_products_full_refinement rfl

/-- Claim C2: starting from no table or an empty table, setup_database
produces exactly the two seed rows, and GET /products on that state
returns exactly the two literal records in insertion order, the first
being ProductID 1, Name Laptop, CPU Intel i7, RAM 16GB, Storage
512GB SSD. -/
theorem setup_then_get_products_seeded :
    setup_database ⟨none⟩ = Except.ok ⟨some seededTable⟩ ∧
    setup_database ⟨some ⟨[], 1⟩⟩ = Except.ok ⟨some seededTable⟩ ∧
    productsEndpoint ⟨some seededTable⟩ =
      (Except.ok ⟨200, JSON.arr [
        JSON.obj [("ProductID", JSON.int 1), ("Name", JSON.str "Laptop"),
          ("CPU", JSON.str "Intel i7"), ("RAM", JSON.str "16GB"),
          ("Storage", JSON.str "512GB SSD")],
        JSON.obj [("ProductID", JSON.int 2), ("Name", JSON.str "Smartphone"),
          ("CPU", JSON.str "Snapdragon 888"), ("RAM", JSON.str "8GB"),
          ("Storage", JSON.str "256GB")]]⟩, ⟨true, true⟩, ⟨some seededTable⟩) :=
  ⟨rfl, rfl, rfl⟩

/-- Claim C3: whenever some stored row's Details document is malformed or
lacks the specs subtree, GET /products raises (no 200 response, no JSON
array with a partial record); the request ends in an error with the
connection left unclosed. -/
theorem get_products_fails_on_bad_row {rows : List Row} {n : Nat} {r : Row}
    (hmem : r ∈ rows) (hbad : lacksSpecs r.details = true) :
    ∃ e, productsEndpoint ⟨some ⟨rows, n⟩⟩ =
      (Except.error e, ⟨false, false⟩, ⟨some ⟨rows, n⟩⟩) := by
  obtain ⟨e, hbe⟩ := buildProducts_error hmem (parseRow_lacksSpecs hbad)
  exact ⟨e, by simp [productsEndpoint, get_products, selectProducts, hbe]⟩

/-- Witness for C3: a one-row table with a malformed document makes the
request fail. -/
theorem get_products_fails_on_bad_row_witness :
    ∃ e, productsEndpoint ⟨some ⟨[⟨1, "Broken", Details.malformed "<product>"⟩], 2⟩⟩ =
      (Except.error e, ⟨false, false⟩,
        ⟨some ⟨[⟨1, "Broken", Details.malformed "<product>"⟩], 2⟩⟩) :=
  get_products_fails_on_bad_row (List.mem_singleton.mpr rfl) rfl

/-- Claim C4: setup_database is idempotent. Any state it produces is a
fixed point of another run; a table whose rows already exist is left
unchanged; and starting from no table or an empty table, one run (hence
also two runs in sequence) leaves exactly two rows. -/
theorem setup_database_idempotent :
    (∀ db db', setup_database db = Except.ok db' →
      setup_database db' = Except.ok db') ∧
    (∀ rows n, rows ≠ [] →
      setup_database ⟨some ⟨rows, n⟩⟩ = Except.ok ⟨some ⟨rows, n⟩⟩) ∧
    (∀ db, (db.table = none ∨ ∃ n, db.table = some ⟨[], n⟩) →
      ∃ db', setup_database db = Except.ok db' ∧
        setup_database db' = Except.ok db' ∧
        ∃ t, db'.table = some t ∧ t.rows.length = 2) := by
  have h2 : ∀ rows n, rows ≠ ([] : List Row) →
      setup_database ⟨some ⟨rows, n⟩⟩ = Except.ok ⟨some ⟨rows, n⟩⟩ := by
    intro rows n hne
    have hlen : rows.length ≠ 0 := by simpa [List.length_eq_zero] using hne
    simp [setup_database, createProductsIfNotExists, countProducts, hlen]
  have h1 : ∀ db db', setup_database db = Except.ok db' →
      setup_database db' = Except.ok db' := by
    intro db db' h
    obtain ⟨tb⟩ := db
    cases tb with
    | none =>
      have hdb : db' = ⟨some seededTable⟩ := by
        have := h.symm.trans (by rfl : setup_database ⟨none⟩ = Except.ok ⟨some seededTable⟩)
        exact (Except.ok.injEq _ _).mp this
      rw [hdb]
      exact h2 _ _ (by simp [seededTable])
    | some t =>
      obtain ⟨rows, nid⟩ := t
      cases rows with
      | nil =>
        have hstep : setup_database ⟨some ⟨[], nid⟩⟩ =
            Except.ok ⟨some (insertValues seedValues ⟨[], nid⟩)⟩ := by
          simp [setup_database, createProductsIfNotExists, countProducts]
        have hdb : db' = ⟨some (insertValues seedValues ⟨[], nid⟩)⟩ :=
          (Except.ok.injEq _ _).mp (h.symm.trans hstep)
        rw [hdb, insertValues_seed]
        exact h2 _ _ (by simp)
      | cons a as =>
        have hstep : setup_database ⟨some ⟨a :: as, nid⟩⟩ =
            Except.ok ⟨some ⟨a :: as, nid⟩⟩ := h2 _ _ (by simp)
        have hdb : db' = ⟨some ⟨a :: as, nid⟩⟩ :=
          (Except.ok.injEq _ _).mp (h.symm.trans hstep)
        rw [hdb]
        exact h2 _ _ (by simp)
  refine ⟨h1, h2, ?_⟩
  intro db hdb
  obtain ⟨tb⟩ := db
  rcases hdb with hnone | ⟨n, hempty⟩
  · simp only at hnone
    subst hnone
    refine ⟨⟨some seededTable⟩, rfl, h1 ⟨none⟩ ⟨some seededTable⟩ rfl, seededTable, rfl, rfl⟩
  · simp only at hempty
    subst hempty
    have hstep : setup_database ⟨some ⟨[], n⟩⟩ =
        Except.ok ⟨some (insertValues seedValues ⟨[], n⟩)⟩ := by
      simp [setup_database, createProductsIfNotExists, countProducts]
    exact ⟨_, hstep, h1 _ _ hstep, insertValues seedValues ⟨[], n⟩, rfl, rfl⟩

/-- Witness for C4: the seeded state is a fixed point of setup_database,
a concrete nonempty table is left unchanged, and running from no table
reaches a two-row state. -/
theorem setup_database_idempotent_witness :
    setup_database ⟨some seededTable⟩ = Except.ok ⟨some seededTable⟩ ∧
    setup_database ⟨some ⟨[⟨7, "Only", Details.malformed "x"⟩], 8⟩⟩ =
      Except.ok ⟨some ⟨[⟨7, "Only", Details.malformed "x"⟩], 8⟩⟩ ∧
    (∃ db', setup_database ⟨none⟩ = Except.ok db' ∧
      setup_database db' = Except.ok db' ∧
      ∃ t, db'.table = some t ∧ t.rows.length = 2) :=
  ⟨setup_database_idempotent.1 ⟨none⟩ ⟨some seededTable⟩ rfl,
   setup_database_idempotent.2.1 _ 8 (by simp),
   setup_database_idempotent.2.2 ⟨none⟩ (Or.inl rfl)⟩

/-- Counterexample for C5: on a table holding one malformed Details
document, the handler raises before reaching the close calls, so neither
the cursor nor the connection is closed when the request ends. -/
theorem get_products_close_counterexample :
    (get_products ⟨some ⟨[⟨1, "Broken", Details.malformed "<product>"⟩], 2⟩⟩).1 =
      Except.error PyError.parseError ∧
    (get_products ⟨some ⟨[⟨1, "Broken", Details.malformed "<product>"⟩], 2⟩⟩).2.1.connClosed
      = false ∧
    (get_products ⟨some ⟨[⟨1, "Broken", Details.malformed "<product>"⟩], 2⟩⟩).2.1.curClosed
      = false :=
  ⟨rfl, rfl, rfl⟩

/-- Claim C5 as amended: on every execution of GET /products in which the
handler returns normally, the cursor and the connection are fully closed
before it returns; when parsing raises, the exception propagates and the
close calls are skipped. -/
theorem get_products_closes_on_success {db : DBState}
    (h : ∃ j, (get_products db).1 = Except.ok j) :
    (get_products db).2.1.curClosed = true ∧
    (get_products db).2.1.connClosed = true := by
  obtain ⟨tb⟩ := db
  cases tb with
  | none =>
    obtain ⟨j, hj⟩ := h
    simp [get_products, selectProducts] at hj
  | some t =>
    cases hb : buildProducts t.rows with
    | error e =>
      obtain ⟨j, hj⟩ := h
      simp [get_products, selectProducts, hb] at hj
    | ok js => simp [get_products, selectProducts, hb]

/-- Witness for C5 (amended): the seeded table gives a successful request
whose cursor and connection both get closed. -/
theorem get_products_closes_on_success_witness :
    (get_products ⟨some seededTable⟩).2.1.curClosed = true ∧
    (get_products ⟨some seededTable⟩).2.1.connClosed = true :=
  get_products_closes_on_success ⟨JSON.arr [
    JSON.obj [("ProductID", JSON.int 1), ("Name", JSON.str "Laptop"),
      ("CPU", JSON.str "Intel i7"), ("RAM", JSON.str "16GB"),
      ("Storage", JSON.str "512GB SSD")],
    JSON.obj [("ProductID", JSON.int 2), ("Name", JSON.str "Smartphone"),
      ("CPU", JSON.str "Snapdragon 888"), ("RAM", JSON.str "8GB"),
      ("Storage", JSON.str "256GB")]], rfl⟩

/-- Claim C6: on an empty table, GET /products returns the empty JSON
array with HTTP status 200 (for every value of the SERIAL sequence). -/
theorem get_products_empty_table (n : Nat) :
    productsEndpoint ⟨some ⟨[], n⟩⟩ =
      (Except.ok ⟨200, JSON.arr []⟩, ⟨true, true⟩, ⟨some ⟨[], n⟩⟩) := rfl

/-- Claim C8: whatever the outcome of the verify call, the signature demo
returns normally to its caller; on a verification failure the only report
is the printed failure line. -/
theorem digital_signature_demo_no_raise (v : Except String Unit) :
    (∃ out, digital_signature_demo v = Except.ok out) ∧
    (∀ e, v = Except.error e →
      digital_signature_demo v = Except.ok
        ["--- Digital Signature Demo ---", "Message signed.",
         "Signature verification failed: " ++ e]) := by
  cases v with
  | ok u => exact ⟨⟨_, rfl⟩, fun e he => by cases he⟩
  | error e => exact ⟨⟨_, rfl⟩, fun e2 he => by cases he; exact rfl⟩

/-- Witness for C8: a concrete failing verification is caught and printed,
and the demo still returns normally. -/
theorem digital_signature_demo_no_raise_witness :
    (∃ out, digital_signature_demo (Except.error "InvalidSignature") = Except.ok out) ∧
    (∀ e, (Except.error "InvalidSignature" : Except String Unit) = Except.error e →
      digital_signature_demo (Except.error "InvalidSignature") = Except.ok
        ["--- Digital Signature Demo ---", "Message signed.",
         "Signature verification failed: " ++ e]) :=
  digital_signature_demo_no_raise (Except.error "InvalidSignature")

/-- Claim C9: GET /products never inserts, updates or deletes rows: the
database state after the request equals the state before it, whether the
handler succeeds or raises. -/
theorem get_products_preserves_state (db : DBState) :
    (get_products db).2.2 = db := by
  obtain ⟨tb⟩ := db
  cases tb with
  | none => rfl
  | some t =>
    cases hb : buildProducts t.rows with
    | error e => simp [get_products, selectProducts, hb]
    | ok js => simp [get_products, selectProducts, hb]

/-- Claim C10: for every table state in which each row's Details document
parses and has a specs node with cpu, ram and storage children, the
request succeeds with status 200 even when a child has no text content;
such a field is emitted as JSON null (jsonOfOpt of an absent text). -/
theorem get_products_null_fields {rows : List Row} {n : Nat} {js : List JSON}
    (h : recordsOf? specRecordNode? rows = some js) :
    productsEndpoint ⟨some ⟨rows, n⟩⟩ =
      (Except.ok ⟨200, JSON.arr js⟩, ⟨true, true⟩, ⟨some ⟨rows, n⟩⟩) := by
  have hb := buildProducts_of_records (fun r j hj => parseRow_of_node hj) h
  simp [productsEndpoint, get_products, selectProducts, hb]

/-- Witness for C10: a row whose cpu element is present but empty yields a
200 response whose record carries null in the CPU field. -/
theorem get_products_null_fields_witness :
    productsEndpoint ⟨some ⟨[⟨1, "Gadget", Details.doc
        (.mk "product" none [.mk "specs" none [
          .mk "cpu" none [], .mk "ram" (some "4GB") [],
          .mk "storage" (some "64GB") []]])⟩], 2⟩⟩ =
      (Except.ok ⟨200, JSON.arr [
        JSON.obj [("ProductID", JSON.int 1), ("Name", JSON.str "Gadget"),
          ("CPU", JSON.null), ("RAM", JSON.str "4GB"),
          ("Storage", JSON.str "64GB")]]⟩, ⟨true, true⟩,
       ⟨some ⟨[⟨1, "Gadget", Details.doc
        (.mk "product" none [.mk "specs" none [
          .mk "cpu" none [], .mk "ram" (some "4GB") [],
          .mk "storage" (some "64GB") []]])⟩], 2⟩⟩) :=
  get_products_null_fields rfl

end WebApp
